import Mathlib

/-!
Verification of the generated VeriStand model glue code in
`src/examples/examplemodel1/src/model.c` and `model.h` (model name
`my_new_model`): the typed value accessor (`USER_SetValueByDataType`,
`USER_GetValueByDataType`), the descriptor tables (`rtParamAttribs`,
`rtSignalAttribs`, `ParamDimList`, `SigDimList`), the lifecycle callbacks
(`USER_Initialize`, `USER_TakeOneStep`), and the double-buffered parameter
store (`rtParameter[2]` / `READSIDE`).

Memory is modelled at byte granularity, CompCert-style: a byte is either a
concrete numeric byte, one of the eight fragments of a stored 64-bit float,
or undefined.  64-bit float values themselves are modelled as exact
rationals plus a NaN, which is adequate here because the C code performs no
floating-point arithmetic: it only stores, loads, truncates to int32 and
widens from int32.
-/

/-- A 64-bit IEEE double value, modelled exactly: a finite value is a
rational; all NaN payloads are collapsed into one `nan`. -/
inductive F64 where
  | val (q : ℚ)
  | nan
deriving DecidableEq

/-- `true` exactly on the NaN value. -/
def F64.isNaN : F64 → Bool
  | .nan => true
  | .val _ => false

/-- One byte of memory: a concrete byte, the `k`-th of the eight bytes of a
stored double `x`, or undefined content. -/
inductive MemByte where
  | byte (b : Nat)
  | dfrag (x : F64) (k : Fin 8)
  | undef
deriving DecidableEq

/-- A flat buffer: contents of each byte address. -/
def Mem : Type := Nat → MemByte

/-- `#define rtDBL 0` (model.c). -/
def rtDBL : Int := 0

/-- `#define rtINT 1` (model.c). -/
def rtINT : Int := 1

/-- Modelled from the spec: `ni_modelframework.h` is not part of the
repository sources; it defines the success status code (`StatusCode.Ok`). -/
def NI_OK : Int := 0

/-- Modelled from the spec: `ni_modelframework.h` is not part of the
repository sources; it defines the failure status code (`StatusCode.Error`). -/
def NI_ERROR : Int := -1

/-- The unsigned 32-bit pattern of an int32 value (two's complement). -/
def toUInt32 (n : Int) : Nat := (n % (4294967296 : Int)).toNat

/-- The int32 value of an unsigned 32-bit pattern (two's complement). -/
def ofUInt32 (u : Nat) : Int :=
  if u < 2147483648 then (u : Int) else (u : Int) - 4294967296

/-- The `k`-th little-endian byte of the 32-bit pattern of `n`. -/
def i32byte (n : Int) (k : Nat) : Nat :=
  match k with
  | 0 => toUInt32 n % 256
  | 1 => toUInt32 n / 256 % 256
  | 2 => toUInt32 n / 65536 % 256
  | 3 => toUInt32 n / 16777216 % 256
  | _ => 0

/-- C truncation of a rational toward zero (the rounding used by the C
float64 → int32 conversion on in-range values). -/
def truncRat (q : ℚ) : Int := Int.sign q.num * (q.num.natAbs / q.den : Nat)

/-- The C conversion `(int32_t)value` applied to a double.  It is undefined
behavior (here: `none`) on NaN and whenever the truncated value does not fit
in int32. -/
def f64ToI32 : F64 → Option Int
  | .val q =>
      if -2147483648 ≤ truncRat q ∧ truncRat q < 2147483648 then some (truncRat q)
      else none
  | .nan => none

/-- `((double*)ptr)[idx] = x`: writes the eight fragment bytes of `x` at
byte addresses `a, …, a+7` (`a = 8*idx`). -/
def storeF64 (mem : Mem) (a : Nat) (x : F64) : Mem :=
  fun j => if h : a ≤ j ∧ j < a + 8 then MemByte.dfrag x ⟨j - a, by omega⟩ else mem j

/-- `((double*)ptr)[idx]`: reads back a double from bytes `a, …, a+7`; the
read value is well-defined (`some`) only when the eight bytes are the eight
fragments of one stored double. -/
def loadF64 (mem : Mem) (a : Nat) : Option F64 :=
  match mem a with
  | MemByte.dfrag x _ =>
      if ∀ k : Fin 8, mem (a + k.val) = MemByte.dfrag x k then some x else none
  | _ => none

/-- `((int32_t*)ptr)[idx] = n`: writes the four little-endian bytes of `n`
at byte addresses `a, …, a+3` (`a = 4*idx`). -/
def storeI32 (mem : Mem) (a : Nat) (n : Int) : Mem :=
  fun j => if a ≤ j ∧ j < a + 4 then MemByte.byte (i32byte n (j - a)) else mem j

/-- `((int32_t*)ptr)[idx]`: reads back an int32 from the four bytes at
`a, …, a+3`; well-defined only when all four are concrete bytes. -/
def loadI32 (mem : Mem) (a : Nat) : Option Int :=
  match mem a, mem (a + 1), mem (a + 2), mem (a + 3) with
  | MemByte.byte b0, MemByte.byte b1, MemByte.byte b2, MemByte.byte b3 =>
      some (ofUInt32 (b0 + 256 * b1 + 65536 * b2 + 16777216 * b3))
  | _, _, _, _ => none

/-- `USER_SetValueByDataType` (model.c, lines 112–123): switch on `type`;
`rtDBL` stores the double at element `idx` and returns `NI_OK`; `rtINT`
stores `(int32_t)value` at element `idx` and returns `NI_OK` (undefined
behavior of the conversion is `none`); any other tag returns `NI_ERROR`
without touching memory.  The element index scales to a byte address by the
element size, as the C pointer cast does. -/
def USER_SetValueByDataType (mem : Mem) (idx : Nat) (value : F64) (type : Int) :
    Option (Int × Mem) :=
  if type = rtDBL then
    some (NI_OK, storeF64 mem (8 * idx) value)
  else if type = rtINT then
    match f64ToI32 value with
    | some n => some (NI_OK, storeI32 mem (4 * idx) n)
    | none => none
  else
    some (NI_ERROR, mem)

/-- `USER_GetValueByDataType` (model.c, lines 125–136): switch on `type`;
`rtDBL` loads the double at element `idx`; `rtINT` loads the int32 at
element `idx` and widens it to double; any other tag returns the quiet NaN
with bit pattern `~(uint64_t)0`.  Memory is threaded through unchanged:
the body contains no store.  An ill-typed load (`none`) is a read of an
unspecified value. -/
def USER_GetValueByDataType (mem : Mem) (idx : Nat) (type : Int) :
    Option (F64 × Mem) :=
  if type = rtDBL then
    (loadF64 mem (8 * idx)).map (fun x => (x, mem))
  else if type = rtINT then
    (loadI32 mem (4 * idx)).map (fun n => (F64.val (n : ℚ), mem))
  else
    some (F64.nan, mem)

theorem ofUInt32_toUInt32 (n : Int) (h1 : -2147483648 ≤ n) (h2 : n < 2147483648) :
    ofUInt32 (toUInt32 n) = n := by
  unfold ofUInt32 toUInt32
  omega

theorem toUInt32_lt (n : Int) : toUInt32 n < 4294967296 := by
  unfold toUInt32
  omega

theorem i32byte_decode (n : Int) :
    i32byte n 0 + 256 * i32byte n 1 + 65536 * i32byte n 2 + 16777216 * i32byte n 3 =
      toUInt32 n := by
  have h := toUInt32_lt n
  simp only [i32byte]
  omega

theorem storeF64_at (mem : Mem) (a : Nat) (x : F64) (k : Nat) (hk : k < 8) :
    storeF64 mem a x (a + k) = MemByte.dfrag x ⟨k, hk⟩ := by
  simp only [storeF64]
  rw [dif_pos (by omega)]
  congr 1
  simp only [Fin.mk.injEq]
  omega

theorem storeF64_frame (mem : Mem) (a : Nat) (x : F64) (j : Nat)
    (hj : j < a ∨ a + 8 ≤ j) :
    storeF64 mem a x j = mem j := by
  simp only [storeF64]
  rw [dif_neg (by omega)]

theorem storeI32_at (mem : Mem) (a : Nat) (n : Int) (k : Nat) (hk : k < 4) :
    storeI32 mem a n (a + k) = MemByte.byte (i32byte n k) := by
  simp only [storeI32]
  rw [if_pos (by omega)]
  have hk2 : a + k - a = k := by omega
  rw [hk2]

theorem storeI32_frame (mem : Mem) (a : Nat) (n : Int) (j : Nat)
    (hj : j < a ∨ a + 4 ≤ j) :
    storeI32 mem a n j = mem j := by
  simp only [storeI32]
  rw [if_neg (by omega)]

theorem loadF64_storeF64 (mem : Mem) (a : Nat) (x : F64) :
    loadF64 (storeF64 mem a x) a = some x := by
  have h0 : storeF64 mem a x a = MemByte.dfrag x ⟨0, by omega⟩ := by
    have h := storeF64_at mem a x 0 (by omega)
    simpa using h
  have hall : ∀ k : Fin 8, storeF64 mem a x (a + k.val) = MemByte.dfrag x k := by
    intro k
    have h := storeF64_at mem a x k.val k.isLt
    simpa using h
  simp only [loadF64, h0]
  rw [if_pos hall]

theorem loadI32_storeI32 (mem : Mem) (a : Nat) (n : Int)
    (h1 : -2147483648 ≤ n) (h2 : n < 2147483648) :
    loadI32 (storeI32 mem a n) a = some n := by
  have e0 : storeI32 mem a n a = MemByte.byte (i32byte n 0) := by
    have h := storeI32_at mem a n 0 (by omega)
    simpa using h
  have e1 := storeI32_at mem a n 1 (by omega)
  have e2 := storeI32_at mem a n 2 (by omega)
  have e3 := storeI32_at mem a n 3 (by omega)
  simp only [loadI32, e0, e1, e2, e3]
  rw [i32byte_decode, ofUInt32_toUInt32 n h1 h2]

/-! ### C type layout and the descriptor tables -/

/-- A C object type as it appears in the generated structs: `int32_t`,
`double`, or a fixed-size array. -/
inductive CTy where
  | i32
  | f64
  | arr (t : CTy) (n : Nat)
deriving DecidableEq

/-- `sizeof` of a C type (LP64/ILP32 ABIs: `int32_t` is 4 bytes, `double`
is 8 bytes, arrays are contiguous). -/
def CTy.size : CTy → Nat
  | .i32 => 4
  | .f64 => 8
  | .arr t n => n * t.size

/-- `_Alignof` of a C type (x86-64 SysV and common 32/64-bit ABIs). -/
def CTy.alignment : CTy → Nat
  | .i32 => 4
  | .f64 => 8
  | .arr t _ => t.alignment

/-- The accessor type tag (`rtDBL`/`rtINT`) of a type's scalar elements. -/
def CTy.scalarTag : CTy → Int
  | .i32 => rtINT
  | .f64 => rtDBL
  | .arr t _ => t.scalarTag

/-- Number of scalar elements of a C type (1 for scalars, product of the
array extents otherwise). -/
def CTy.elemCount : CTy → Nat
  | .i32 => 1
  | .f64 => 1
  | .arr t n => n * t.elemCount

/-- Round `o` up to the next multiple of `a`. -/
def alignUp (o a : Nat) : Nat := (o + a - 1) / a * a

/-- The byte offsets C assigns to consecutive struct fields starting at
offset `o`: each field is placed at the next multiple of its alignment. -/
def fieldOffsets (o : Nat) : List CTy → List Nat
  | [] => []
  | t :: ts =>
      alignUp o t.alignment :: fieldOffsets (alignUp o t.alignment + t.size) ts

/-- Offset just past the last field, starting from offset `o`. -/
def structEnd (o : Nat) : List CTy → Nat
  | [] => o
  | t :: ts => structEnd (alignUp o t.alignment + t.size) ts

/-- The strictest alignment among the fields. -/
def maxAlignment (ts : List CTy) : Nat := ts.foldr (fun t m => max t.alignment m) 1

/-- `sizeof` of a struct with the given fields: the end of the last field
rounded up to the struct's alignment. -/
def sizeofStruct (ts : List CTy) : Nat := alignUp (structEnd 0 ts) (maxAlignment ts)

/-- The field types of `struct Parameters` (model.h):
`int32_t i32_param; double double_vec_param[4][4];`. -/
def ParametersFieldTypes : List CTy := [CTy.i32, CTy.arr (CTy.arr CTy.f64 4) 4]

/-- The field types of `struct Signals` (model.h):
`int32_t i32_vec_sig[24]; double double_sig;`. -/
def SignalsFieldTypes : List CTy := [CTy.arr CTy.i32 24, CTy.f64]

/-- `offsetof(Parameters, ·)` of the `k`-th field. -/
def offsetofParameters (k : Nat) : Nat := (fieldOffsets 0 ParametersFieldTypes).getD k 0

/-- `offsetof(Signals, ·)` of the `k`-th field. -/
def offsetofSignals (k : Nat) : Nat := (fieldOffsets 0 SignalsFieldTypes).getD k 0

/-- Modelled from the spec: `NI_Parameter` is declared in
`ni_modelframework.h`, which is not part of the repository sources.  Its
fields, in the order the initializers of `rtParamAttribs` fill them, are:
entry index, parameter name, byte offset into `Parameters`, type tag,
element count, number of dimensions, offset into `ParamDimList`, and a
complexity flag. -/
structure NI_Parameter where
  idx : Int
  paramname : String
  addr : Nat
  datatype : Int
  width : Nat
  numofdims : Nat
  dimListOffset : Nat
  IsComplex : Int
deriving DecidableEq

/-- `rtParamAttribs` (model.c, lines 61–64).  The two `addr` entries are
what `offsetof(Parameters, i32_param)` and
`offsetof(Parameters, double_vec_param)` evaluate to under the C layout
rules (4 bytes of padding precede the 8-aligned double array). -/
def rtParamAttribs : List NI_Parameter :=
  [⟨0, "my_new_model/i32_param", 0, rtINT, 1, 2, 0, 0⟩,
   ⟨0, "my_new_model/double_vec_param", 8, rtDBL, 16, 2, 2, 0⟩]

/-- `ParamDimList` (model.c, lines 65–68). -/
def ParamDimList : List Int := [1, 1, 4, 4]

/-- `int32_t ParameterSize = 2` (model.c). -/
def ParameterSize : Int := 2

/-- The products of consecutive `(rows, cols)` pairs of a dimension list. -/
def dimProducts : List Int → List Nat
  | r :: c :: rest => r.toNat * c.toNat :: dimProducts rest
  | _ => []

/-- Modelled from the spec: `NI_Signal` is declared in
`ni_modelframework.h`, which is not part of the repository sources.  Its
fields, in the order the initializers of `rtSignalAttribs` fill them, are:
entry index, block name, port number, description string, the signal's
address (filled in by `USER_Initialize`), a base address, type tag, element
count, number of dimensions, offset into `SigDimList`, and a complexity
flag. -/
structure NI_Signal where
  idx : Int
  blockname : String
  portno : Int
  signalname : String
  addr : Nat
  baseaddr : Nat
  datatype : Int
  width : Nat
  numofdims : Nat
  dimListOffset : Nat
  IsComplex : Int
deriving DecidableEq

/-- First initializer of `rtSignalAttribs` (model.c, line 81). -/
def sigAttribInit0 : NI_Signal :=
  ⟨0, "my_new_model/i32_vec_sig", 0, "an array of integers", 0, 0, rtINT, 24, 2, 0, 0⟩

/-- Second initializer of `rtSignalAttribs` (model.c, line 82). -/
def sigAttribInit1 : NI_Signal :=
  ⟨0, "my_new_model/double_sig", 0, "a double value", 0, 0, rtDBL, 1, 2, 2, 0⟩

/-- `SigDimList` (model.c, lines 85–88). -/
def SigDimList : List Int := [24, 1, 1, 1]

/-! ### Global model state and the lifecycle callbacks -/

/-- The value of a `struct Parameters` (model.h): one int32 and a 4×4
double array. -/
structure Parameters where
  i32_param : Int
  double_vec_param : Fin 4 → Fin 4 → F64

/-- The value of a `struct Signals` (model.h): a 24-element int32 array
and one double. -/
structure Signals where
  i32_vec_sig : Fin 24 → Int
  double_sig : F64

/-- `Parameters initParams`: a static object with no initializer, so
zero-initialized. -/
def initParams : Parameters := ⟨0, fun _ _ => F64.val 0⟩

/-- The mutable globals of the model.  The two-element C arrays
`rtSignalAttribs[2]` and `rtParameter[2]` are modelled as two fields each;
`rtSignalBase` is the load address the runtime gave the `rtSignal` global,
so that `&rtSignal.f` is `rtSignalBase + offsetof(Signals, f)`. -/
structure ModelState where
  sigAttrib0 : NI_Signal
  sigAttrib1 : NI_Signal
  rtParameter0 : Parameters
  rtParameter1 : Parameters
  READSIDE : Int
  rtSignal : Signals
  rtSignalBase : Nat

/-- `#define readParam rtParameter[READSIDE]` (model.h, line 30): the
active-side parameter block; indexing with a selector outside {0, 1} is out
of bounds (`none`). -/
def readParam (st : ModelState) : Option Parameters :=
  if st.READSIDE = 0 then some st.rtParameter0
  else if st.READSIDE = 1 then some st.rtParameter1
  else none

/-- `USER_Initialize` (model.c, lines 138–144): stores the addresses of
`rtSignal.i32_vec_sig` and `&rtSignal.double_sig` into the `addr` fields of
the two `rtSignalAttribs` entries and returns `NI_OK`. -/
def USER_Initialize (st : ModelState) : Int × ModelState :=
  (NI_OK,
   { st with
     sigAttrib0 := { st.sigAttrib0 with addr := st.rtSignalBase + offsetofSignals 0 },
     sigAttrib1 := { st.sigAttrib1 with addr := st.rtSignalBase + offsetofSignals 1 } })

/-- Modelled from the spec: the framework's `initialize` entry point lives
in `ni_modelframework.c`, which is not part of the repository sources.  Per
the spec it seeds ParameterStore side 0 from the defaults, sets the
selector to 0, and runs the model's `USER_Initialize` callback. -/
def frameworkInitialize (st : ModelState) : Int × ModelState :=
  USER_Initialize { st with rtParameter0 := initParams, READSIDE := 0 }

/-- `USER_ModelStart` (model.c, lines 146–148): returns `NI_OK`. -/
def USER_ModelStart (st : ModelState) : Int × ModelState := (NI_OK, st)

/-- `USER_TakeOneStep` (model.c, lines 150–161): casts the two flat
buffers to port views, discards them and the timestamp, and returns
`NI_OK`; no global, signal or outbound data is written. -/
def USER_TakeOneStep (st : ModelState) (inData : Mem) (outData : Mem)
    (timestamp : F64) : Int × Mem × ModelState :=
  (NI_OK, outData, st)

/-- `USER_ModelFinalize` (model.c, lines 163–165): returns `NI_OK`. -/
def USER_ModelFinalize (st : ModelState) : Int × ModelState := (NI_OK, st)

/-! ### The double-buffered parameter store

Modelled from the spec: the staging and publishing machinery around
`rtParameter[2]`/`READSIDE` lives in `ni_modelframework.c`, which is not
part of the repository sources; `model.h` only declares the two sides and
the selector.  Per the spec, the writer mutates only the non-active side
and `publish` atomically flips the selector.  `pubCount`/`pubHist` are
history variables recording each publish's complete block; they let the
atomicity property be stated: the active block always equals the block
recorded at the latest publish. -/

/-- A parameter block, abstracted as its field contents. -/
def ParamBlk : Type := Nat → Int

/-- The two-sided store: both blocks, the active-side selector, and the
publish history (generation count and each generation's full block). -/
structure PStore where
  side0 : ParamBlk
  side1 : ParamBlk
  readside : Bool
  pubCount : Nat
  pubHist : Nat → ParamBlk

/-- The block the selector designates as active. -/
def activeBlk (s : PStore) : ParamBlk := if s.readside then s.side1 else s.side0

/-- The non-active block, which the host stages into. -/
def stagingBlk (s : PStore) : ParamBlk := if s.readside then s.side0 else s.side1

/-- `readActive`: what the step executor reads each tick. -/
def readActive (s : PStore) : ParamBlk := activeBlk s

/-- One writer operation: staging a single field value, or publishing. -/
inductive PSOp where
  | stageWrite (i : Nat) (v : Int)
  | publish

/-- The writer's transition function: `stageWrite` updates one field of the
non-active side; `publish` flips the selector (recording the newly active
block in the history). -/
def psStep (s : PStore) : PSOp → PStore
  | PSOp.stageWrite i v =>
      if s.readside then
        { s with side0 := fun j => if j = i then v else s.side0 j }
      else
        { s with side1 := fun j => if j = i then v else s.side1 j }
  | PSOp.publish =>
      { s with
        readside := !s.readside
        pubCount := s.pubCount + 1
        pubHist := fun g => if g = s.pubCount + 1 then stagingBlk s else s.pubHist g }

/-- The store as the framework sets it up: both sides hold `b`, side 0
active, generation 0 recorded as `b`. -/
def psInit (b : ParamBlk) : PStore := ⟨b, b, false, 0, fun _ => b⟩

/-- Running a sequence of writer operations. -/
def psRun (s : PStore) : List PSOp → PStore
  | [] => s
  | op :: ops => psRun (psStep s op) ops

/-- The atomicity invariant: the active block is exactly the block recorded
at the most recent publish. -/
def psInv (s : PStore) : Prop := activeBlk s = s.pubHist s.pubCount

theorem psStep_inv (s : PStore) (op : PSOp) (h : psInv s) : psInv (psStep s op) := by
  cases op with
  | stageWrite i v =>
      unfold psInv activeBlk at *
      unfold psStep
      by_cases hr : s.readside <;> simp [hr] at h ⊢ <;> exact h
  | publish =>
      unfold psInv activeBlk at *
      unfold psStep stagingBlk
      by_cases hr : s.readside <;> simp [hr]

theorem psRun_inv (ops : List PSOp) (s : PStore) (h : psInv s) : psInv (psRun s ops) := by
  induction ops generalizing s with
  | nil => exact h
  | cons op ops ih => exact ih (psStep s op) (psStep_inv s op h)

theorem psInit_inv (b : ParamBlk) : psInv (psInit b) := rfl

/-! ### The lifecycle state machine

Modelled from the spec: the lifecycle dispatch lives in the host framework
(`ni_modelframework.c`), not in the repository sources, which hold only the
`USER_*` callbacks.  Per the spec the machine is
`Uninitialized → Initialized → Running → Finalized` with `Running`
re-entrant under `step`, `finalize` also legal from `Initialized`, and any
other invocation rejected with `LifecycleViolation`. -/

/-- The spec's error kinds. -/
inductive ErrorKind where
  | UnsupportedType
  | OutOfRange
  | LayoutMismatch
  | LifecycleViolation
  | UserLogicFailure
deriving DecidableEq

/-- The lifecycle states. -/
inductive LifeState where
  | Uninitialized
  | Initialized
  | Running
  | Finalized
deriving DecidableEq

/-- `initialize`: legal only from `Uninitialized`. -/
def lcInitialize : LifeState → Except ErrorKind LifeState
  | LifeState.Uninitialized => Except.ok LifeState.Initialized
  | _ => Except.error ErrorKind.LifecycleViolation

/-- `start`: legal only from `Initialized`. -/
def lcStart : LifeState → Except ErrorKind LifeState
  | LifeState.Initialized => Except.ok LifeState.Running
  | _ => Except.error ErrorKind.LifecycleViolation

/-- `step`: legal only from `Running`, which it re-enters. -/
def lcStep : LifeState → Except ErrorKind LifeState
  | LifeState.Running => Except.ok LifeState.Running
  | _ => Except.error ErrorKind.LifecycleViolation

/-- `finalize`: legal from `Running` or from `Initialized`. -/
def lcFinalize : LifeState → Except ErrorKind LifeState
  | LifeState.Running => Except.ok LifeState.Finalized
  | LifeState.Initialized => Except.ok LifeState.Finalized
  | _ => Except.error ErrorKind.LifecycleViolation

/-- A finite double is representable exactly when it is `m · 2^e` with
`|m| < 2^53` and `e` in the IEEE binary64 exponent range. -/
def isReprF64 (q : ℚ) : Prop :=
  ∃ m e : Int, m.natAbs < 9007199254740992 ∧ -1074 ≤ e ∧ e ≤ 971 ∧
    q = (m : ℚ) * (2 : ℚ) ^ e

theorem int32_isReprF64 (n : Int) (h1 : -2147483648 ≤ n) (h2 : n < 2147483648) :
    isReprF64 (n : ℚ) := by
  refine ⟨n, 0, by omega, by omega, by omega, ?_⟩
  simp

/-! ### Helper lemmas and concrete inputs -/

/-- An all-zero buffer, used as a concrete input. -/
def zeroMem : Mem := fun _ => MemByte.byte 0

theorem f64ToI32_some (x : F64) (n : Int) (h : f64ToI32 x = some n) :
    -2147483648 ≤ n ∧ n < 2147483648 := by
  cases x with
  | val q =>
      simp only [f64ToI32] at h
      split_ifs at h with hc
      · cases h
        exact hc
  | nan => simp [f64ToI32] at h

theorem f64ToI32_val_eq (q : ℚ) (n : Int) (h : f64ToI32 (F64.val q) = some n) :
    n = truncRat q := by
  simp only [f64ToI32] at h
  split_ifs at h
  cases h
  rfl

/-! ### The claims -/

/-- C1: for every buffer, element index and supported tag, a `setByType`
followed by `getByType` at the same index and tag returns the written
value: exactly for `rtDBL`, and the int32-truncated value widened back to
double for `rtINT` (the hypothesis `f64ToI32 x = some n` states that `x`
is representable in int32 storage, with `n` its truncation). -/
theorem C1_set_get_roundtrip :
    (∀ (mem : Mem) (i : Nat) (x : F64),
      USER_SetValueByDataType mem i x rtDBL = some (NI_OK, storeF64 mem (8 * i) x) ∧
      USER_GetValueByDataType (storeF64 mem (8 * i) x) i rtDBL =
        some (x, storeF64 mem (8 * i) x)) ∧
    (∀ (mem : Mem) (i : Nat) (x : F64) (n : Int), f64ToI32 x = some n →
      USER_SetValueByDataType mem i x rtINT = some (NI_OK, storeI32 mem (4 * i) n) ∧
      USER_GetValueByDataType (storeI32 mem (4 * i) n) i rtINT =
        some (F64.val (n : ℚ), storeI32 mem (4 * i) n)) := by
  constructor
  · intro mem i x
    constructor
    · simp [USER_SetValueByDataType, rtDBL]
    · simp [USER_GetValueByDataType, rtDBL, loadF64_storeF64]
  · intro mem i x n h
    obtain ⟨h1, h2⟩ := f64ToI32_some x n h
    constructor
    · simp [USER_SetValueByDataType, rtINT, rtDBL, h]
    · simp [USER_GetValueByDataType, rtINT, rtDBL, loadI32_storeI32 mem (4 * i) n h1 h2]

/-- Witness for C1 at buffer `zeroMem`, index 5, value 3. -/
theorem C1_set_get_roundtrip_witness :
    f64ToI32 (F64.val 3) = some 3 ∧
    (USER_SetValueByDataType zeroMem 5 (F64.val 3) rtINT =
       some (NI_OK, storeI32 zeroMem 20 3) ∧
     USER_GetValueByDataType (storeI32 zeroMem 20 3) 5 rtINT =
       some (F64.val ((3 : Int) : ℚ), storeI32 zeroMem 20 3)) :=
  ⟨by decide, C1_set_get_roundtrip.2 zeroMem 5 (F64.val 3) 3 (by decide)⟩

/-- C2: for any type tag other than `rtDBL` and `rtINT`, `setByType`
returns the `NI_ERROR` status code and leaves the buffer untouched, and
`getByType` returns the quiet-NaN sentinel (a total function: no
exception), also without touching the buffer. -/
theorem C2_invalid_tag (mem : Mem) (i : Nat) (x : F64) (t : Int)
    (h0 : t ≠ rtDBL) (h1 : t ≠ rtINT) :
    USER_SetValueByDataType mem i x t = some (NI_ERROR, mem) ∧
    USER_GetValueByDataType mem i t = some (F64.nan, mem) ∧
    F64.isNaN F64.nan = true := by
  refine ⟨?_, ?_, rfl⟩
  · simp [USER_SetValueByDataType, h0, h1]
  · simp [USER_GetValueByDataType, h0, h1]

/-- Witness for C2 at tag 2. -/
theorem C2_invalid_tag_witness :
    (2 : Int) ≠ rtDBL ∧ (2 : Int) ≠ rtINT ∧
    (USER_SetValueByDataType zeroMem 0 (F64.val 1) 2 = some (NI_ERROR, zeroMem) ∧
     USER_GetValueByDataType zeroMem 0 2 = some (F64.nan, zeroMem) ∧
     F64.isNaN F64.nan = true) :=
  ⟨by decide, by decide, C2_invalid_tag zeroMem 0 (F64.val 1) 2 (by decide) (by decide)⟩

/-- C3 counterexample: the descriptor for `i32_param` declares
`elementCount = 1` (its storage is bytes 0–3 of the block), yet
`setByType` at index 1 — which is `≥ elementCount` — does not fail with
any error status: it returns `NI_OK` and overwrites byte 4, which lies
outside the declared element range.  The code has no bounds check. -/
theorem C3_out_of_range_counterexample :
    List.map NI_Parameter.width rtParamAttribs = [1, 16] ∧
    USER_SetValueByDataType zeroMem 1 (F64.val 3) rtINT =
      some (NI_OK, storeI32 zeroMem 4 3) ∧
    NI_OK ≠ NI_ERROR ∧
    storeI32 zeroMem 4 3 4 = MemByte.byte 3 ∧
    zeroMem 4 = MemByte.byte 0 := by
  refine ⟨by decide, ?_, by decide, by decide, rfl⟩
  have h : f64ToI32 (F64.val 3) = some 3 := by decide
  simp [USER_SetValueByDataType, rtINT, rtDBL, h]

/-- C3 amended: the accessor performs no bounds check at all.  For any
declared element count `c` and any index `i ≥ c`, `setByType` with a
supported tag still succeeds with `NI_OK` and writes the element slot at
the computed offset — byte `4*i`, at or beyond the end `4*c` of the
declared range — and `getByType` likewise reads it without any error. -/
theorem C3_no_bounds_check (mem : Mem) (i c : Nat) (x : F64) (n : Int)
    (hc : c ≤ i) (hx : f64ToI32 x = some n) :
    USER_SetValueByDataType mem i x rtINT = some (NI_OK, storeI32 mem (4 * i) n) ∧
    storeI32 mem (4 * i) n (4 * i) = MemByte.byte (i32byte n 0) ∧
    4 * c ≤ 4 * i ∧
    USER_SetValueByDataType mem i x rtDBL = some (NI_OK, storeF64 mem (8 * i) x) ∧
    USER_GetValueByDataType mem i rtINT =
      (loadI32 mem (4 * i)).map (fun k => (F64.val (k : ℚ), mem)) := by
  refine ⟨?_, ?_, by omega, ?_, ?_⟩
  · simp [USER_SetValueByDataType, rtINT, rtDBL, hx]
  · have h := storeI32_at mem (4 * i) n 0 (by omega)
    simpa using h
  · simp [USER_SetValueByDataType, rtDBL]
  · simp [USER_GetValueByDataType, rtINT, rtDBL]

/-- Witness for the amended C3 at count 1, index 1, value 3. -/
theorem C3_no_bounds_check_witness :
    (1 : Nat) ≤ 1 ∧ f64ToI32 (F64.val 3) = some 3 ∧
    (USER_SetValueByDataType zeroMem 1 (F64.val 3) rtINT =
       some (NI_OK, storeI32 zeroMem 4 3) ∧
     storeI32 zeroMem 4 3 4 = MemByte.byte (i32byte 3 0) ∧
     4 * 1 ≤ 4 * 1 ∧
     USER_SetValueByDataType zeroMem 1 (F64.val 3) rtDBL =
       some (NI_OK, storeF64 zeroMem 8 (F64.val 3)) ∧
     USER_GetValueByDataType zeroMem 1 rtINT =
       (loadI32 zeroMem 4).map (fun k => (F64.val (k : ℚ), zeroMem))) :=
  ⟨by decide, by decide,
   C3_no_bounds_check zeroMem 1 1 (F64.val 3) 3 (by decide) (by decide)⟩

/-- C4: in every state reachable by any interleaving of staging writes and
publishes, `readActive` returns exactly the full block recorded at the most
recent publish — never a mix of two publish generations — and `publish` is
the sole transition that changes visibility: it flips the selector and
leaves both blocks' contents unchanged. -/
theorem C4_publish_atomicity :
    (∀ (b : ParamBlk) (ops : List PSOp),
      readActive (psRun (psInit b) ops) =
        (psRun (psInit b) ops).pubHist (psRun (psInit b) ops).pubCount) ∧
    (∀ s : PStore,
      (psStep s PSOp.publish).side0 = s.side0 ∧
      (psStep s PSOp.publish).side1 = s.side1 ∧
      (psStep s PSOp.publish).readside = !s.readside) := by
  constructor
  · intro b ops
    exact psRun_inv ops (psInit b) (psInit_inv b)
  · intro s
    exact ⟨rfl, rfl, rfl⟩

/-- C5: `setByType` with `rtINT` stores exactly the int32 obtained by
truncating the double toward zero; `setByType` with `rtDBL` stores the
double exactly; `getByType` with `rtINT` returns the exact rational
widening of the stored int32, and that widening is exact because every
int32 is a representable binary64 value. -/
theorem C5_numeric_conversions :
    (∀ (mem : Mem) (i : Nat) (q : ℚ) (n : Int), f64ToI32 (F64.val q) = some n →
      n = truncRat q ∧
      USER_SetValueByDataType mem i (F64.val q) rtINT =
        some (NI_OK, storeI32 mem (4 * i) n) ∧
      loadI32 (storeI32 mem (4 * i) n) (4 * i) = some n) ∧
    (∀ (mem : Mem) (i : Nat) (x : F64),
      USER_SetValueByDataType mem i x rtDBL = some (NI_OK, storeF64 mem (8 * i) x) ∧
      loadF64 (storeF64 mem (8 * i) x) (8 * i) = some x) ∧
    (∀ (mem : Mem) (i : Nat) (n : Int), -2147483648 ≤ n → n < 2147483648 →
      USER_GetValueByDataType (storeI32 mem (4 * i) n) i rtINT =
        some (F64.val (n : ℚ), storeI32 mem (4 * i) n) ∧
      isReprF64 ((n : ℚ))) := by
  refine ⟨?_, ?_, ?_⟩
  · intro mem i q n h
    obtain ⟨h1, h2⟩ := f64ToI32_some (F64.val q) n h
    refine ⟨f64ToI32_val_eq q n h, ?_, loadI32_storeI32 mem (4 * i) n h1 h2⟩
    simp [USER_SetValueByDataType, rtINT, rtDBL, h]
  · intro mem i x
    exact ⟨by simp [USER_SetValueByDataType, rtDBL], loadF64_storeF64 mem (8 * i) x⟩
  · intro mem i n h1 h2
    constructor
    · simp [USER_GetValueByDataType, rtINT, rtDBL, loadI32_storeI32 mem (4 * i) n h1 h2]
    · exact int32_isReprF64 n h1 h2

/-- Witness for C5 at buffer `zeroMem`, index 0, value 7. -/
theorem C5_numeric_conversions_witness :
    f64ToI32 (F64.val 7) = some 7 ∧
    (7 = truncRat 7 ∧
     USER_SetValueByDataType zeroMem 0 (F64.val 7) rtINT =
       some (NI_OK, storeI32 zeroMem 0 7) ∧
     loadI32 (storeI32 zeroMem 0 7) 0 = some 7) :=
  ⟨by decide, C5_numeric_conversions.1 zeroMem 0 7 7 (by decide)⟩

/-- C6: the parameter descriptor table is a bit-exact description of
`struct Parameters`: each entry's byte offset is the field's in-memory
offset under the C layout rules (`double_vec_param` sits at offset 8, after
4 bytes of padding behind the int32), each element count is the product of
the field's extents in `ParamDimList` and equals the field's scalar count,
and each type tag is the field's storage type. -/
theorem C6_descriptor_table_matches_layout :
    fieldOffsets 0 ParametersFieldTypes = [0, 8] ∧
    List.map NI_Parameter.addr rtParamAttribs = fieldOffsets 0 ParametersFieldTypes ∧
    List.map NI_Parameter.datatype rtParamAttribs =
      List.map CTy.scalarTag ParametersFieldTypes ∧
    List.map NI_Parameter.width rtParamAttribs =
      List.map CTy.elemCount ParametersFieldTypes ∧
    List.map NI_Parameter.width rtParamAttribs = dimProducts ParamDimList ∧
    List.map NI_Parameter.dimListOffset rtParamAttribs = [0, 2] ∧
    sizeofStruct ParametersFieldTypes = 136 ∧
    ParameterSize = (List.length rtParamAttribs : Int) := by decide

/-- C7: `initialize` returns `NI_OK` after binding the address of each
`Signals` field into the signal descriptor table — entry 0 gets the address
of `rtSignal.i32_vec_sig` (offset 0), entry 1 the address of
`rtSignal.double_sig` (offset 96) — seeding parameter side 0 from the
defaults and setting the selector to 0, so that `readParam` reads the
defaults. -/
theorem C7_initialize_binds_and_seeds (st : ModelState) :
    (frameworkInitialize st).1 = NI_OK ∧
    (frameworkInitialize st).2.sigAttrib0.addr = st.rtSignalBase + offsetofSignals 0 ∧
    (frameworkInitialize st).2.sigAttrib1.addr = st.rtSignalBase + offsetofSignals 1 ∧
    offsetofSignals 0 = 0 ∧
    offsetofSignals 1 = 96 ∧
    (frameworkInitialize st).2.rtParameter0 = initParams ∧
    (frameworkInitialize st).2.READSIDE = 0 ∧
    readParam (frameworkInitialize st).2 = some initParams :=
  ⟨rfl, rfl, rfl, by decide, by decide, rfl, rfl, rfl⟩

/-- C8: the lifecycle state machine rejects every out-of-order invocation
with `LifecycleViolation`: in particular `step` before `initialize`/`start`
fails, and a second `initialize` after a successful first one fails; each
operation is legal only from the state the machine
`Uninitialized → Initialized → Running → Finalized` prescribes. -/
theorem C8_lifecycle_guards :
    lcStep LifeState.Uninitialized = Except.error ErrorKind.LifecycleViolation ∧
    lcStep LifeState.Initialized = Except.error ErrorKind.LifecycleViolation ∧
    lcInitialize LifeState.Uninitialized = Except.ok LifeState.Initialized ∧
    lcInitialize LifeState.Initialized = Except.error ErrorKind.LifecycleViolation ∧
    (∀ s, s ≠ LifeState.Uninitialized →
      lcInitialize s = Except.error ErrorKind.LifecycleViolation) ∧
    (∀ s, s ≠ LifeState.Initialized →
      lcStart s = Except.error ErrorKind.LifecycleViolation) ∧
    (∀ s, s ≠ LifeState.Running →
      lcStep s = Except.error ErrorKind.LifecycleViolation) ∧
    (∀ s, s ≠ LifeState.Running → s ≠ LifeState.Initialized →
      lcFinalize s = Except.error ErrorKind.LifecycleViolation) := by
  refine ⟨rfl, rfl, rfl, rfl, ?_, ?_, ?_, ?_⟩ <;>
    intro s <;> cases s <;> simp [lcInitialize, lcStart, lcStep, lcFinalize]

/-- Witness for C8's guarded clauses at the `Finalized` state. -/
theorem C8_lifecycle_guards_witness :
    LifeState.Finalized ≠ LifeState.Uninitialized ∧
    lcInitialize LifeState.Finalized = Except.error ErrorKind.LifecycleViolation :=
  ⟨by decide, C8_lifecycle_guards.2.2.2.2.1 LifeState.Finalized (by decide)⟩

/-- C9: the shipped step callback is an identity stub: for every global
state, inbound buffer, outbound buffer and timestamp it returns `NI_OK`
and leaves the outbound buffer and all global state (signals included)
exactly as given. -/
theorem C9_step_identity_stub (st : ModelState) (inData outData : Mem) (t : F64) :
    USER_TakeOneStep st inData outData t = (NI_OK, outData, st) := rfl

/-- C10: `setByType` only touches the addressed element — with `rtDBL` the
eight bytes of element `i`, with `rtINT` its four bytes; every byte outside
that element is unchanged — and `getByType` returns the buffer it was given
unchanged (it is a pure read). -/
theorem C10_accessor_frame :
    (∀ (mem : Mem) (i : Nat) (x : F64) (j : Nat), j < 8 * i ∨ 8 * i + 8 ≤ j →
      USER_SetValueByDataType mem i x rtDBL = some (NI_OK, storeF64 mem (8 * i) x) ∧
      storeF64 mem (8 * i) x j = mem j) ∧
    (∀ (mem : Mem) (i : Nat) (x : F64) (n : Int) (j : Nat), f64ToI32 x = some n →
      j < 4 * i ∨ 4 * i + 4 ≤ j →
      USER_SetValueByDataType mem i x rtINT = some (NI_OK, storeI32 mem (4 * i) n) ∧
      storeI32 mem (4 * i) n j = mem j) ∧
    (∀ (mem : Mem) (i : Nat) (t : Int) (v : F64) (m : Mem),
      USER_GetValueByDataType mem i t = some (v, m) → m = mem) := by
  refine ⟨?_, ?_, ?_⟩
  · intro mem i x j hj
    exact ⟨by simp [USER_SetValueByDataType, rtDBL], storeF64_frame mem (8 * i) x j hj⟩
  · intro mem i x n j hx hj
    refine ⟨?_, storeI32_frame mem (4 * i) n j hj⟩
    simp [USER_SetValueByDataType, rtINT, rtDBL, hx]
  · intro mem i t v m h
    unfold USER_GetValueByDataType at h
    split_ifs at h
    · cases hl : loadF64 mem (8 * i) with
      | none => rw [hl] at h; simp at h
      | some x => rw [hl] at h; simp at h; exact h.2.symm
    · cases hl : loadI32 mem (4 * i) with
      | none => rw [hl] at h; simp at h
      | some k => rw [hl] at h; simp at h; exact h.2.symm
    · simp at h
      exact h.2.symm

/-- Witness for C10 at index 1, byte 0 (below the written element) and an
unsupported-tag read. -/
theorem C10_accessor_frame_witness :
    ((0 : Nat) < 8 * 1 ∨ 8 * 1 + 8 ≤ 0) ∧
    (USER_SetValueByDataType zeroMem 1 (F64.val 3) rtDBL =
       some (NI_OK, storeF64 zeroMem 8 (F64.val 3)) ∧
     storeF64 zeroMem 8 (F64.val 3) 0 = zeroMem 0) ∧
    (USER_GetValueByDataType zeroMem 0 2 = some (F64.nan, zeroMem) ∧ zeroMem = zeroMem) :=
  ⟨Or.inl (by decide),
   C10_accessor_frame.1 zeroMem 1 (F64.val 3) 0 (Or.inl (by decide)),
   rfl, C10_accessor_frame.2.2 zeroMem 0 2 F64.nan zeroMem rfl⟩
